import Mathlib

/-!
Verification of the task-tracking bot's prioritization-and-scheduling core.

The definitions below are a shallow embedding of the Python sources:
`utils.py` (priority scorer), `database.py` (entity-store operations and the
statistics aggregator), `bot.py` (the deadline-monitor sweep `check_deadlines`)
and `ai_helper.py` (the advisory engine).  Timestamps are modelled as integer
seconds; Python's `timedelta.days` is floor division by 86400.
-/

namespace TaskBot

/-- A row of the `tasks` table (`models.py`, class `Task`).  Only the columns
the prioritization/scheduling core reads are modelled; `deadline` and
`completed_at` are integer seconds, `none` meaning SQL NULL. -/
structure Task where
  id : Nat
  user_id : Nat
  title : String
  status : String
  priority : String
  deadline : Option Int
  estimated_time : Option Int
  reminder_sent : Bool
  completed_at : Option Int
  deriving Repr, DecidableEq

/-- A row of the `users` table (`models.py`, class `User`): `id` is the
internal primary key, `telegram_id` the external chat identity. -/
structure User where
  id : Nat
  telegram_id : Nat
  deriving Repr, DecidableEq

/-- A row of the `categories` table (`models.py`, class `Category`). -/
structure Category where
  id : Nat
  user_id : Nat
  name : String
  color : String
  deriving Repr, DecidableEq

/-- A row of the `subtasks` table (`models.py`, class `Subtask`). -/
structure Subtask where
  id : Nat
  task_id : Nat
  title : String
  is_completed : Bool
  deriving Repr, DecidableEq

/-- The entity store: the four tables the claims touch. -/
structure Store where
  users : List User
  tasks : List Task
  categories : List Category
  subtasks : List Subtask
  deriving Repr, DecidableEq

/-- Python `(deadline - now).days`: `timedelta` normalises so that `.days` is
the floor of the difference in days. -/
def daysUntil (deadline now : Int) : Int :=
  Int.fdiv (deadline - now) 86400

/-- `utils.get_task_priority_score`: `priority_scores.get(task.priority, 2) * 1000`,
plus `max(0, min(days_until, 30)) * 10` when a deadline is set, minus 5 when the
status is `in_progress`. -/
def get_task_priority_score (now : Int) (t : Task) : Int :=
  let base :=
    (if t.priority = "urgent" then 0
     else if t.priority = "high" then 1
     else if t.priority = "medium" then 2
     else if t.priority = "low" then 3
     else 2) * 1000
  let withDeadline :=
    match t.deadline with
    | some d => base + max 0 (min (daysUntil d now) 30) * 10
    | none => base
  if t.status = "in_progress" then withDeadline - 5 else withDeadline

/-- The WHERE clause of `database.get_tasks_due_soon`: status is `"pending"`,
deadline is not NULL and at most `now + hours` hours away, and the reminder has
not been sent. -/
def isDueSoon (now : Int) (hours : Int) (t : Task) : Bool :=
  t.status == "pending" &&
  (match t.deadline with
   | some d => decide (d ≤ now + hours * 3600)
   | none => false) &&
  t.reminder_sent == false

/-- `database.get_tasks_due_soon(hours)`: the tasks matching `isDueSoon`. -/
def get_tasks_due_soon (tasks : List Task) (now : Int) (hours : Int) : List Task :=
  tasks.filter (isDueSoon now hours)

/-- `database.mark_reminder_sent(task_id)`: select the task by id alone (no
user scoping) and set its `reminder_sent` flag. -/
def mark_reminder_sent (tasks : List Task) (task_id : Nat) : List Task :=
  tasks.map (fun t => if t.id == task_id then { t with reminder_sent := true } else t)

/-- One dispatched reminder of the sweep: the `chat_id` passed to
`bot.send_message` (which `bot.check_deadlines` sets to `task.user_id`)
paired with the task's id.  The notification text is not modelled. -/
abbrev Sent := Nat × Nat

/-- The body of the `for task in tasks:` loop of `bot.check_deadlines`:
each iteration is wrapped in `try/except`, so a failed `send_message`
(modelled by `send chat_id task_id = false`) is logged and skipped, while a
successful one is recorded and followed by `mark_reminder_sent(task.id)`. -/
def run_sweep (send : Nat → Nat → Bool) (tasks : List Task) (sel : List Task)
    (sent : List Sent) : List Task × List Sent :=
  match sel with
  | [] => (tasks, sent)
  | t :: rest =>
    if send t.user_id t.id then
      run_sweep send (mark_reminder_sent tasks t.id) rest (sent ++ [(t.user_id, t.id)])
    else
      run_sweep send tasks rest sent

/-- `bot.check_deadlines`: fetch `get_tasks_due_soon(hours=24)` once, then run
the notification loop.  Returns the updated task table and the list of
dispatched notifications. -/
def check_deadlines (send : Nat → Nat → Bool) (now : Int) (tasks : List Task) :
    List Task × List Sent :=
  run_sweep send tasks (get_tasks_due_soon tasks now 24) []

/-- The keyword arguments accepted by `database.update_task`: a field equal to
`none` is Python `None` and is skipped by the `value is not None` check. -/
structure TaskPatch where
  title : Option String := none
  status : Option String := none
  priority : Option String := none
  deadline : Option Int := none
  estimated_time : Option Int := none
  deriving Repr, DecidableEq

/-- The `setattr` loop of `database.update_task`. -/
def applyTaskPatch (t : Task) (p : TaskPatch) : Task :=
  { t with
    title := p.title.getD t.title
    status := p.status.getD t.status
    priority := p.priority.getD t.priority
    deadline := (p.deadline.map some).getD t.deadline
    estimated_time := (p.estimated_time.map some).getD t.estimated_time }

/-- `database.get_task_by_id(task_id, user_id)`: the row is looked up with
`Task.id == task_id AND Task.user_id == user_id`. -/
def get_task_by_id (s : Store) (task_id user_id : Nat) : Option Task :=
  s.tasks.find? (fun t => t.id == task_id && t.user_id == user_id)

/-- `database.update_task(task_id, user_id, **kwargs)`: user-scoped lookup;
when found, apply the patch and set `completed_at` the first time the status
becomes `completed`; otherwise leave the store unchanged and return `None`. -/
def update_task (s : Store) (task_id user_id : Nat) (p : TaskPatch) (now : Int) :
    Store × Option Task :=
  match s.tasks.find? (fun t => t.id == task_id && t.user_id == user_id) with
  | none => (s, none)
  | some t =>
    let t1 := applyTaskPatch t p
    let t2 :=
      if p.status == some "completed" && t1.completed_at == none then
        { t1 with completed_at := some now }
      else t1
    ({ s with tasks := s.tasks.map (fun u =>
        if u.id == task_id && u.user_id == user_id then t2 else u) }, some t2)

/-- `database.delete_task(task_id, user_id)`: user-scoped lookup; deletion
cascades to the task's subtasks (`models.Task.subtasks`, `delete-orphan`). -/
def delete_task (s : Store) (task_id user_id : Nat) : Store × Bool :=
  if s.tasks.any (fun t => t.id == task_id && t.user_id == user_id) then
    ({ s with
        tasks := s.tasks.filter (fun t => !(t.id == task_id && t.user_id == user_id))
        subtasks := s.subtasks.filter (fun st => !(st.task_id == task_id)) }, true)
  else (s, false)

/-- `database.get_category_by_id(category_id, user_id)`: user-scoped lookup. -/
def get_category_by_id (s : Store) (category_id user_id : Nat) : Option Category :=
  s.categories.find? (fun c => c.id == category_id && c.user_id == user_id)

/-- `database.update_category(category_id, user_id, **kwargs)` with the
`name`/`color` keyword arguments; user-scoped lookup, unchanged store and
`None` when not found. -/
def update_category (s : Store) (category_id user_id : Nat)
    (name color : Option String) : Store × Option Category :=
  match s.categories.find? (fun c => c.id == category_id && c.user_id == user_id) with
  | none => (s, none)
  | some c =>
    let c1 := { c with name := name.getD c.name, color := color.getD c.color }
    ({ s with categories := s.categories.map (fun u =>
        if u.id == category_id && u.user_id == user_id then c1 else u) }, some c1)

/-- `database.delete_category(category_id, user_id)`: user-scoped lookup;
tasks referencing the category are not cascade-deleted. -/
def delete_category (s : Store) (category_id user_id : Nat) : Store × Bool :=
  if s.categories.any (fun c => c.id == category_id && c.user_id == user_id) then
    ({ s with categories :=
        s.categories.filter (fun c => !(c.id == category_id && c.user_id == user_id)) }, true)
  else (s, false)

/-- `database.toggle_subtask(subtask_id)`: the row is looked up by
`Subtask.id == subtask_id` alone — no user (or task-owner) scoping — and its
completion flag is flipped. -/
def toggle_subtask (s : Store) (subtask_id : Nat) : Store × Option Subtask :=
  match s.subtasks.find? (fun st => st.id == subtask_id) with
  | none => (s, none)
  | some st =>
    let st1 := { st with is_completed := !st.is_completed }
    ({ s with subtasks := s.subtasks.map (fun u =>
        if u.id == subtask_id then st1 else u) }, some st1)

/-- `database.mark_reminder_sent` lifted to the store: lookup by task id
alone, no user scoping (see `mark_reminder_sent`). -/
def Store.mark_reminder_sent (s : Store) (task_id : Nat) : Store :=
  { s with tasks := TaskBot.mark_reminder_sent s.tasks task_id }

/-- The statistics record returned by `database.get_user_statistics`. -/
structure Stats where
  total : Nat
  completed : Nat
  pending : Nat
  overdue : Nat
  completion_rate : ℚ
  deriving Repr, DecidableEq

/-- Rounding to one decimal place, the embedding of Python's `round(x, 1)`
on the exact rational value. -/
def round1 (q : ℚ) : ℚ := (round (q * 10) : ℤ) / 10

/-- `database.get_user_statistics(user_id)`: four COUNT queries over the
user's tasks and the completion rate, which is `round(completed/total*100, 1)`
when `total > 0` and `0` otherwise. -/
def get_user_statistics (tasks : List Task) (user_id : Nat) (now : Int) : Stats :=
  let mine := tasks.filter (fun t => t.user_id == user_id)
  let total := mine.length
  let completed := (mine.filter (fun t => t.status == "completed")).length
  let pending := (mine.filter (fun t => t.status == "pending")).length
  let overdue := (mine.filter (fun t =>
    t.status == "pending" &&
    (match t.deadline with
     | some d => decide (d < now)
     | none => false))).length
  { total := total
    completed := completed
    pending := pending
    overdue := overdue
    completion_rate :=
      if total > 0 then round1 ((completed : ℚ) / (total : ℚ) * 100) else 0 }

/-! ### Advisory engine (`ai_helper.py`)

The external language-model service is modelled as a function from the prompt
to `Except`: `.error` is a raised exception, `.ok` the reply text.  `client`
is `none` exactly when no `OPENAI_API_KEY` credential is configured.  Each
operation returns its text result together with the list of prompts actually
sent to the service, so "no network call was attempted" is `= []`. -/

/-- A configured language-model client: prompt in, reply or exception out. -/
abbrev Client := String → Except String String

/-- The fixed configuration-missing message returned by every advisory mode
when no credential is configured. -/
def configMissingMsg : String :=
  "AI-помощник не настроен. Добавьте OPENAI_API_KEY в .env файл"

/-- The `tasks_text` line of `AIHelper.get_advice`. -/
def adviceLine (t : Task) : String :=
  "- " ++ t.title ++ " (приоритет: " ++ t.priority ++ ", статус: " ++ t.status ++ ")"

/-- `AIHelper.get_advice`: short-circuit on a missing credential, otherwise
build the prompt from the first 10 tasks and relay the reply (stripped), or a
generic failure string when the call raises. -/
def get_advice (client : Option Client) (tasks : List Task) (user_context : String) :
    String × List String :=
  match client with
  | none => (configMissingMsg, [])
  | some c =>
    let tasks_text := String.intercalate "\n" ((tasks.take 10).map adviceLine)
    let prompt :=
      "Ты - полезный помощник по продуктивности. Пользователь имеет следующие задачи:\n\n"
      ++ tasks_text
      ++ "\n\nДай короткий, практичный совет (2-3 предложения) по улучшению продуктивности.\n"
      ++ user_context ++ "\n\nОтвечай на русском языке."
    match c prompt with
    | .ok r => (r.trim, [prompt])
    | .error e => ("Ошибка AI: " ++ e, [prompt])

/-- The priority rank used by `AIHelper.plan_day`'s two-key sort (unrecognized
tiers rank 4 here, unlike the scorer's 2). -/
def planRank (p : String) : Nat :=
  if p = "urgent" then 0 else if p = "high" then 1
  else if p = "medium" then 2 else if p = "low" then 3 else 4

/-- `datetime.max` as the sort key for a missing deadline in `plan_day`. -/
def datetimeMax : Int := 253402300799

/-- `AIHelper.plan_day`: short-circuit on a missing credential, otherwise sort
the pending tasks by (priority rank, deadline-or-max), truncate to 15, build
the day-plan prompt and relay the reply. -/
def plan_day (client : Option Client) (tasks : List Task) (work_hours : Nat) :
    String × List String :=
  match client with
  | none => (configMissingMsg, [])
  | some c =>
    let pending := tasks.filter (fun t => t.status == "pending")
    let sorted := pending.mergeSort (fun a b =>
      planRank a.priority < planRank b.priority ||
      (planRank a.priority == planRank b.priority &&
        a.deadline.getD datetimeMax ≤ b.deadline.getD datetimeMax))
    let tasks_text := String.intercalate "\n" ((sorted.take 15).map (fun t =>
      "- " ++ t.title ++ " (приоритет: " ++ t.priority ++ ", время: "
      ++ (match t.estimated_time with | some m => toString m | none => "?") ++ " мин)"))
    let prompt :=
      "Создай оптимальный план дня на " ++ toString work_hours
      ++ " часов для следующих задач:\n\n" ++ tasks_text
      ++ "\n\nУчитывай:\n1. Сначала срочные и важные задачи\n"
      ++ "2. Чередуй сложные и простые задачи\n"
      ++ "3. Включи короткие перерывы каждые 2 часа\n4. Будь реалистичным по времени"
    match c prompt with
    | .ok r => (r.trim, [prompt])
    | .error e => ("Ошибка планирования: " ++ e, [prompt])

/-- `AIHelper.analyze_tasks`: short-circuit on a missing credential, otherwise
summarise counts into the analysis prompt and relay the reply. -/
def analyze_tasks (client : Option Client) (tasks : List Task) (now : Int) :
    String × List String :=
  match client with
  | none => (configMissingMsg, [])
  | some c =>
    let total := tasks.length
    let completed := (tasks.filter (fun t => t.status == "completed")).length
    let pending := (tasks.filter (fun t => t.status == "pending")).length
    let overdue := (tasks.filter (fun t =>
      (match t.deadline with | some d => decide (d < now) | none => false) &&
      t.status != "completed")).length
    let prompt :=
      "Проанализируй состояние задач пользователя и дай рекомендации:\n\n"
      ++ "- Всего задач: " ++ toString total
      ++ "\n- Выполнено: " ++ toString completed
      ++ "\n- Ожидает: " ++ toString pending
      ++ "\n- Просрочено: " ++ toString overdue
      ++ "\n\nДай 3-5 конкретных рекомендаций по улучшению продуктивности на русском языке."
    match c prompt with
    | .ok r => (r.trim, [prompt])
    | .error e => ("Ошибка анализа: " ++ e, [prompt])

/-- `AIHelper.optimize_schedule`: short-circuit on a missing credential,
otherwise build the schedule-optimization prompt over the unfinished tasks
with a time estimate and relay the reply. -/
def optimize_schedule (client : Option Client) (tasks : List Task)
    (available_hours : Nat) : String × List String :=
  match client with
  | none => (configMissingMsg, [])
  | some c =>
    let tasks_with_time := tasks.filter (fun t =>
      t.status != "completed" && t.estimated_time.isSome)
    let total_time := (tasks_with_time.map (fun t => t.estimated_time.getD 0)).sum
    let tasks_text := String.intercalate "\n" ((tasks_with_time.take 10).map (fun t =>
      "- " ++ t.title ++ " ("
      ++ (match t.estimated_time with | some m => toString m | none => "?")
      ++ " мин, приоритет: " ++ t.priority ++ ")"))
    let prompt :=
      "Помоги оптимизировать расписание задач:\n\nДоступное время: "
      ++ toString available_hours ++ " часов\nОбъем задач: " ++ toString total_time
      ++ " минут\n\nЗадачи:\n" ++ tasks_text
      ++ "\n\nОтвечай на русском языке, кратко и по делу."
    match c prompt with
    | .ok r => (r.trim, [prompt])
    | .error e => ("Ошибка оптимизации: " ++ e, [prompt])

/-- `AIHelper.break_down_task`: short-circuit on a missing credential,
otherwise ask the service to split the task and relay the reply. -/
def break_down_task (client : Option Client) (task_title task_description : String) :
    String × List String :=
  match client with
  | none => (configMissingMsg, [])
  | some c =>
    let prompt :=
      "Разбей следующую задачу на конкретные подзадачи:\n\nЗадача: " ++ task_title
      ++ "\nОписание: " ++ task_description
      ++ "\n\nОтвечай только списком подзадач на русском языке."
    match c prompt with
    | .ok r => (r.trim, [prompt])
    | .error e => ("Ошибка разбивки: " ++ e, [prompt])

/-- Python `re.search(r'\d+', s)` followed by `int(...)`: the first maximal
run of decimal digits in `s`, as a number. -/
def firstDigitRun (s : String) : Option Nat :=
  let rest := s.toList.dropWhile (fun ch => !ch.isDigit)
  let digits := rest.takeWhile Char.isDigit
  if digits.isEmpty then none
  else some (digits.foldl (fun n ch => n * 10 + (ch.toNat - 48)) 0)

/-- The reply parsing of `AIHelper.estimate_time`.  The source strips the
reply before the regex search; stripping end whitespace changes neither the
existence nor the value of the first digit run, so the parse is applied to
the reply directly. -/
def parse_minutes (reply : String) : Nat :=
  match firstDigitRun reply with
  | some n => n
  | none => 30

/-- The prompt of `AIHelper.estimate_time`. -/
def estimatePrompt (task_title task_description : String) : String :=
  "Оцени время выполнения этой задачи в минутах.\n\nЗадача: " ++ task_title
  ++ "\nОписание: " ++ task_description
  ++ "\n\nОтвечи только числом (минуты), без дополнительного текста."

/-- `AIHelper.estimate_time`: 30 when no credential is configured (with no
call attempted), 30 when the call raises, the first integer of the reply
otherwise (30 again when the reply holds none). -/
def estimate_time (client : Option Client) (task_title task_description : String) :
    Nat × List String :=
  match client with
  | none => (30, [])
  | some c =>
    let prompt := estimatePrompt task_title task_description
    match c prompt with
    | .ok r => (parse_minutes r, [prompt])
    | .error _ => (30, [prompt])

/-! ### Spec-side formulation of the priority score (for claim C1) -/

/-- The spec's tier rank table: rank(urgent)=0, rank(high)=1, rank(medium)=2,
rank(low)=3, any unrecognized tier rank 2. -/
def specTierRank (p : String) : Int :=
  if p = "urgent" then 0
  else if p = "high" then 1
  else if p = "medium" then 2
  else if p = "low" then 3
  else 2

/-- The spec's `clamp(x, lo, hi)`. -/
def specClamp (x lo hi : Int) : Int := min (max x lo) hi

/-- The score exactly as the spec words it: tier rank × 1000, plus
`clamp(days_until_deadline, 0, 30) × 10` when a deadline is set, minus 5 when
the status is `in_progress`, and nothing else. -/
def priorityScoreSpec (now : Int) (t : Task) : Int :=
  specTierRank t.priority * 1000
  + (match t.deadline with
     | some d => specClamp (daysUntil d now) 0 30 * 10
     | none => 0)
  - (if t.status = "in_progress" then 5 else 0)

/-! ### Arithmetic facts about the day difference -/

theorem daysUntil_eq_ediv (d now : Int) : daysUntil d now = (d - now) / 86400 :=
  Int.fdiv_eq_ediv _ (by omega)

theorem daysUntil_mono (now : Int) {d1 d2 : Int} (h : d1 ≤ d2) :
    daysUntil d1 now ≤ daysUntil d2 now := by
  rw [daysUntil_eq_ediv, daysUntil_eq_ediv]
  exact Int.ediv_le_ediv (by norm_num) (by omega)

theorem daysUntil_shift (now k : Int) : daysUntil (now + k * 86400) now = k := by
  rw [daysUntil_eq_ediv]
  have : now + k * 86400 - now = k * 86400 := by ring
  rw [this, Int.mul_ediv_cancel _ (by norm_num)]

theorem daysUntil_neg_of_past {d now : Int} (h : d < now) : daysUntil d now < 0 := by
  rw [daysUntil_eq_ediv]
  have h1 : d - now ≤ -1 := by omega
  have h2 : (d - now) / 86400 ≤ (-1 : Int) / 86400 :=
    Int.ediv_le_ediv (by norm_num) h1
  have h3 : (-1 : Int) / 86400 = -1 := by decide
  omega

theorem daysUntil_ge_thirty {d now : Int} (h : now + 30 * 86400 ≤ d) :
    30 ≤ daysUntil d now := by
  have := @daysUntil_mono now (now + 30 * 86400) d h
  rwa [daysUntil_shift] at this

/-- A concrete medium-priority pending task used to instantiate theorems. -/
def sampleTask : Task :=
  { id := 1, user_id := 1, title := "задача", status := "pending",
    priority := "medium", deadline := none, estimated_time := none,
    reminder_sent := false, completed_at := none }

theorem daysUntil_add (now c : Int) : daysUntil (now + c) now = c / 86400 := by
  rw [daysUntil_eq_ediv]
  congr 1
  ring

/-- The score of a task after swapping in a given deadline splits into the
deadline-free score plus the clamped-days contribution. -/
theorem score_deadline_split (now : Int) (t : Task) (d : Int) :
    get_task_priority_score now { t with deadline := some d } =
      get_task_priority_score now { t with deadline := none }
      + max 0 (min (daysUntil d now) 30) * 10 := by
  unfold get_task_priority_score
  simp only
  split_ifs <;> ring

/-- C1: for every task and fixed current time, the priority scorer returns
the rank of the priority tier (urgent 0, high 1, medium 2, low 3,
unrecognized 2) times 1000, plus clamp(days-until-deadline, 0, 30) times 10
when a deadline is set, minus 5 when the status is in_progress — exactly the
spec's formula, with no other contribution (the scorer is a pure function). -/
theorem C1_priority_score_matches_spec (now : Int) (t : Task) :
    get_task_priority_score now t = priorityScoreSpec now t := by
  unfold get_task_priority_score priorityScoreSpec specTierRank specClamp
  rcases t with ⟨_, _, _, status, priority, deadline, _, _, _⟩
  simp only
  cases deadline with
  | none => split_ifs <;> ring
  | some d =>
    have hclamp : max 0 (min (daysUntil d now) 30) = min (max (daysUntil d now) 0) 30 := by
      omega
    split_ifs <;> simp only [hclamp] <;> ring

/-- C7: holding everything but the deadline fixed, the deadline contribution
to the score is monotonically non-decreasing in the deadline (hence in
days-until-deadline), identical for any two deadlines at least 30 days out
(in particular 40 days versus 30 days), and exactly 0 for a deadline already
in the past (the score then equals the no-deadline score). -/
theorem C7_deadline_contribution (now : Int) (t : Task) (d1 d2 : Int) :
    (d1 ≤ d2 →
      get_task_priority_score now { t with deadline := some d1 } ≤
        get_task_priority_score now { t with deadline := some d2 }) ∧
    (now + 30 * 86400 ≤ d1 → now + 30 * 86400 ≤ d2 →
      get_task_priority_score now { t with deadline := some d1 } =
        get_task_priority_score now { t with deadline := some d2 }) ∧
    (d1 < now →
      get_task_priority_score now { t with deadline := some d1 } =
        get_task_priority_score now { t with deadline := none }) ∧
    (get_task_priority_score now { t with deadline := some (now + 40 * 86400) } =
      get_task_priority_score now { t with deadline := some (now + 30 * 86400) }) := by
  refine ⟨?_, ?_, ?_, ?_⟩
  · intro h
    rw [score_deadline_split, score_deadline_split]
    have := daysUntil_mono now h
    omega
  · intro h1 h2
    rw [score_deadline_split, score_deadline_split]
    have g1 := daysUntil_ge_thirty h1
    have g2 := daysUntil_ge_thirty h2
    omega
  · intro h
    rw [score_deadline_split]
    have := daysUntil_neg_of_past h
    omega
  · rw [score_deadline_split, score_deadline_split, daysUntil_shift, daysUntil_shift]
    norm_num

/-- C7 witness: the three hypothetical parts of `C7_deadline_contribution`
evaluated at concrete deadlines (1 vs 2 days out, 31 vs 35 days out, and one
day in the past), at `now = 0` on a concrete medium-priority pending task. -/
theorem C7_deadline_contribution_witness :
    (get_task_priority_score 0 { sampleTask with deadline := some 86400 } ≤
      get_task_priority_score 0 { sampleTask with deadline := some 172800 }) ∧
    (get_task_priority_score 0 { sampleTask with deadline := some (31 * 86400) } =
      get_task_priority_score 0 { sampleTask with deadline := some (35 * 86400) }) ∧
    (get_task_priority_score 0 { sampleTask with deadline := some (-86400) } =
      get_task_priority_score 0 { sampleTask with deadline := none }) :=
  ⟨(C7_deadline_contribution 0 sampleTask 86400 172800).1 (by norm_num),
   (C7_deadline_contribution 0 sampleTask (31 * 86400) (35 * 86400)).2.1
     (by norm_num) (by norm_num),
   (C7_deadline_contribution 0 sampleTask (-86400) 0).2.2.1 (by norm_num)⟩

/-- An urgent pending task with deadline `now + offset` seconds, as in the
spec's end-to-end ordering example. -/
def urgentPendingAt (now offset : Int) : Task :=
  { id := 1, user_id := 1, title := "задача", status := "pending",
    priority := "urgent", deadline := some (now + offset),
    estimated_time := none, reminder_sent := false, completed_at := none }

/-- C8 counterexample: at `now = 0`, the urgent pending task due in 1 hour and
the one due in 10 hours get the same score (both day differences floor to 0),
so the first does NOT appear strictly before the second under an ascending
sort by score. -/
theorem C8_counterexample :
    ¬ (get_task_priority_score 0 (urgentPendingAt 0 3600) <
        get_task_priority_score 0 (urgentPendingAt 0 36000)) := by
  decide

/-- C8 amended: the two scores are equal for every current time — the deadline
contribution has whole-day granularity, and both deadlines are under a day
away — so the 1-hour task sorts no later than (but not strictly before) the
10-hours task; an ascending stable sort keeps them in input order. -/
theorem C8_urgent_one_hour_vs_ten_hours (now : Int) :
    get_task_priority_score now (urgentPendingAt now 3600) =
      get_task_priority_score now (urgentPendingAt now 36000) ∧
    get_task_priority_score now (urgentPendingAt now 3600) ≤
      get_task_priority_score now (urgentPendingAt now 36000) := by
  have h : ∀ c : Int, urgentPendingAt now c = { urgentPendingAt now 0 with deadline := some (now + c) } := by
    intro c
    rfl
  have e1 := score_deadline_split now (urgentPendingAt now 0) (now + 3600)
  have e2 := score_deadline_split now (urgentPendingAt now 0) (now + 36000)
  rw [h 3600, h 36000]
  rw [e1, e2, daysUntil_add, daysUntil_add]
  norm_num

/-- A pending-style task with the given deadline, status and reminder flag,
used for the spec's concrete due-soon instances. -/
def dueProbe (dl : Int) (status : String) (sent : Bool) : Task :=
  { id := 7, user_id := 3, title := "проба", status := status,
    priority := "high", deadline := some dl, estimated_time := none,
    reminder_sent := sent, completed_at := none }

/-- The WHERE clause of `get_tasks_due_soon`, read as a proposition. -/
theorem isDueSoon_iff (now hours : Int) (t : Task) :
    isDueSoon now hours t = true ↔
      t.status = "pending" ∧
      (∃ d, t.deadline = some d ∧ d ≤ now + hours * 3600) ∧
      t.reminder_sent = false := by
  unfold isDueSoon
  cases hd : t.deadline with
  | none => simp [hd]
  | some d => simp [hd, and_assoc]

/-- C2: a task is selected by the Deadline Monitor's query iff it is pending,
has a deadline at most 24 hours away and its reminder was not yet sent; in
particular, for every current time: a pending task due in 23 hours with the
flag clear IS selected, the same task with the flag set is NOT, the same task
with status in_progress / completed / cancelled is NOT, and a pending task due
in 25 hours is NOT. -/
theorem C2_due_soon_selection (tasks : List Task) (now : Int) (t : Task) :
    (t ∈ get_tasks_due_soon tasks now 24 ↔
      t ∈ tasks ∧ t.status = "pending" ∧
      (∃ d, t.deadline = some d ∧ d ≤ now + 24 * 3600) ∧
      t.reminder_sent = false) ∧
    isDueSoon now 24 (dueProbe (now + 23 * 3600) "pending" false) = true ∧
    isDueSoon now 24 (dueProbe (now + 23 * 3600) "pending" true) = false ∧
    isDueSoon now 24 (dueProbe (now + 23 * 3600) "in_progress" false) = false ∧
    isDueSoon now 24 (dueProbe (now + 23 * 3600) "completed" false) = false ∧
    isDueSoon now 24 (dueProbe (now + 23 * 3600) "cancelled" false) = false ∧
    isDueSoon now 24 (dueProbe (now + 25 * 3600) "pending" false) = false := by
  refine ⟨?_, ?_, ?_, ?_, ?_, ?_, ?_⟩
  · rw [get_tasks_due_soon, List.mem_filter, isDueSoon_iff]
  · simp [isDueSoon, dueProbe]
  · simp [isDueSoon, dueProbe]
  · simp [isDueSoon, dueProbe]
  · simp [isDueSoon, dueProbe]
  · simp [isDueSoon, dueProbe]
  · simp [isDueSoon, dueProbe]

/-- Ten tasks of user 1, the first four completed, the rest pending — the
spec's concrete statistics example. -/
def tenTasks : List Task :=
  (List.range 10).map (fun i =>
    { sampleTask with id := i, status := if i < 4 then "completed" else "pending" })

/-- C6: the statistics aggregator returns, for a user's task set, the number
of their tasks, of completed ones, of pending ones, and of pending ones whose
deadline lies strictly before now, and a completion rate of
round(completed/total×100, 1 decimal) for total > 0 and 0 for total = 0; on
the spec's example of 10 tasks with 4 completed the rate is 40.0, and on an
empty set every field is 0 with no division-by-zero failure.  The computation
is a pure function of its inputs. -/
theorem C6_statistics (tasks : List Task) (uid : Nat) (now : Int) :
    (get_user_statistics tasks uid now).total
        = tasks.countP (fun t => t.user_id == uid) ∧
    (get_user_statistics tasks uid now).completed
        = tasks.countP (fun t => t.user_id == uid && t.status == "completed") ∧
    (get_user_statistics tasks uid now).pending
        = tasks.countP (fun t => t.user_id == uid && t.status == "pending") ∧
    (get_user_statistics tasks uid now).overdue
        = tasks.countP (fun t => t.user_id == uid && t.status == "pending" &&
            (match t.deadline with | some d => decide (d < now) | none => false)) ∧
    (get_user_statistics tasks uid now).completion_rate
        = (if (get_user_statistics tasks uid now).total > 0 then
            round1 (((get_user_statistics tasks uid now).completed : ℚ)
              / ((get_user_statistics tasks uid now).total : ℚ) * 100)
          else 0) ∧
    (get_user_statistics tenTasks 1 0).completion_rate = 40 ∧
    get_user_statistics [] 1 0 =
      { total := 0, completed := 0, pending := 0, overdue := 0, completion_rate := 0 } := by
  refine ⟨?_, ?_, ?_, ?_, ?_, ?_, ?_⟩
  · simp [get_user_statistics, List.countP_eq_length_filter]
  · simp [get_user_statistics, List.countP_eq_length_filter, List.filter_filter,
      Bool.and_comm]
  · simp [get_user_statistics, List.countP_eq_length_filter, List.filter_filter,
      Bool.and_comm]
  · simp [get_user_statistics, List.countP_eq_length_filter, List.filter_filter,
      Bool.and_comm, Bool.and_left_comm, Bool.and_assoc]
  · simp [get_user_statistics]
  · have hc : ((tenTasks.filter (fun t => t.user_id == 1)).filter
        (fun t => t.status == "completed")).length = 4 := by decide
    have ht : (tenTasks.filter (fun t => t.user_id == 1)).length = 10 := by decide
    unfold get_user_statistics
    simp only [hc, ht]
    norm_num [round1, round_eq]
  · rfl

/-- C9: with no configured credential (`client = none`) every advisory mode —
advice, day-plan, analysis, schedule-optimization, task-breakdown — returns
the fixed configuration-missing message and sends no prompt to the external
service (the call list is empty); time estimation returns the default of 30
minutes, likewise without a call, and also returns 30 when the configured
service raises or when its reply contains no integer. -/
theorem C9_advisory_engine_fallbacks (tasks : List Task) (user_context : String)
    (work_hours : Nat) (now : Int) (title descr : String) :
    get_advice none tasks user_context = (configMissingMsg, []) ∧
    plan_day none tasks work_hours = (configMissingMsg, []) ∧
    analyze_tasks none tasks now = (configMissingMsg, []) ∧
    optimize_schedule none tasks work_hours = (configMissingMsg, []) ∧
    break_down_task none title descr = (configMissingMsg, []) ∧
    estimate_time none title descr = (30, []) ∧
    (∀ (c : Client) (e : String), c (estimatePrompt title descr) = .error e →
      (estimate_time (some c) title descr).1 = 30) ∧
    (∀ (c : Client) (r : String), c (estimatePrompt title descr) = .ok r →
      firstDigitRun r = none → (estimate_time (some c) title descr).1 = 30) := by
  refine ⟨rfl, rfl, rfl, rfl, rfl, rfl, ?_, ?_⟩
  · intro c e h
    simp only [estimate_time, h]
  · intro c r h hr
    simp only [estimate_time, h]
    simp [parse_minutes, hr]

/-- C9 witness: the two hypothetical parts of `C9_advisory_engine_fallbacks`
at a client that raises and at a client whose reply holds no digits; both
estimates come out as the default 30. -/
theorem C9_advisory_engine_fallbacks_witness :
    (estimate_time (some (fun _ => Except.error "сбой")) "задача" "").1 = 30 ∧
    (estimate_time (some (fun _ => Except.ok "нет числа")) "задача" "").1 = 30 :=
  ⟨(C9_advisory_engine_fallbacks [] "" 8 0 "задача" "").2.2.2.2.2.2.1
      (fun _ => Except.error "сбой") "сбой" rfl,
   (C9_advisory_engine_fallbacks [] "" 8 0 "задача" "").2.2.2.2.2.2.2
      (fun _ => Except.ok "нет числа") "нет числа" rfl (by decide)⟩

/-! ### Behaviour of the Deadline Monitor loop -/

/-- Notifications of a sweep run: the accumulator plus one record per selected
task whose dispatch succeeds, in order. -/
theorem run_sweep_sent (send : Nat → Nat → Bool) (tasks : List Task)
    (sel : List Task) (sent : List Sent) :
    (run_sweep send tasks sel sent).2 =
      sent ++ (sel.filter (fun t => send t.user_id t.id)).map
        (fun t => (t.user_id, t.id)) := by
  induction sel generalizing tasks sent with
  | nil => simp [run_sweep]
  | cons t rest ih =>
    by_cases h : send t.user_id t.id
    · simp [run_sweep, h, ih]
    · simp [run_sweep, h, ih]

/-- Task table after a sweep run: each row whose id belongs to a selected task
with a successful dispatch gets `reminder_sent := true`; everything else is
untouched. -/
theorem run_sweep_tasks (send : Nat → Nat → Bool) (tasks : List Task)
    (sel : List Task) (sent : List Sent) :
    (run_sweep send tasks sel sent).1 =
      tasks.map (fun u =>
        if (sel.filter (fun t => send t.user_id t.id)).any (fun t => t.id == u.id)
        then { u with reminder_sent := true } else u) := by
  induction sel generalizing tasks sent with
  | nil =>
    simp [run_sweep]
  | cons t rest ih =>
    rw [run_sweep]
    by_cases h : send t.user_id t.id
    · rw [if_pos h, ih, mark_reminder_sent, List.map_map]
      refine List.map_congr_left ?_
      intro u _
      by_cases hu : t.id = u.id
      · simp [Function.comp, ← hu, h]
      · by_cases hrest :
            (rest.filter (fun t => send t.user_id t.id)).any (fun t => t.id == u.id) <;>
          simp_all [Function.comp, Ne.symm hu]
    · rw [if_neg h, ih]
      refine List.map_congr_left ?_
      intro u _
      simp [List.filter_cons, h]

theorem check_deadlines_sent (send : Nat → Nat → Bool) (now : Int) (s : List Task) :
    (check_deadlines send now s).2 =
      ((get_tasks_due_soon s now 24).filter (fun t => send t.user_id t.id)).map
        (fun t => (t.user_id, t.id)) := by
  rw [check_deadlines, run_sweep_sent]
  simp

theorem check_deadlines_tasks (send : Nat → Nat → Bool) (now : Int) (s : List Task) :
    (check_deadlines send now s).1 =
      s.map (fun u =>
        if ((get_tasks_due_soon s now 24).filter (fun t => send t.user_id t.id)).any
            (fun t => t.id == u.id)
        then { u with reminder_sent := true } else u) :=
  run_sweep_tasks send s (get_tasks_due_soon s now 24) []

/-- The sweep rewrites rows in place: the id column is untouched. -/
theorem check_deadlines_ids (send : Nat → Nat → Bool) (now : Int) (s : List Task) :
    (check_deadlines send now s).1.map Task.id = s.map Task.id := by
  rw [check_deadlines_tasks, List.map_map]
  refine List.map_congr_left ?_
  intro u _
  by_cases h : ((get_tasks_due_soon s now 24).filter (fun t => send t.user_id t.id)).any
      (fun t => t.id == u.id) <;>
    simp [Function.comp, h]

/-- With unique task ids, one sweep dispatches at most one notification
carrying any given task id. -/
theorem sweep_count_le_one (send : Nat → Nat → Bool) (now : Int) (s : List Task)
    (hids : (s.map Task.id).Nodup) (i : Nat) :
    (check_deadlines send now s).2.countP (fun p => p.2 == i) ≤ 1 := by
  rw [check_deadlines_sent, List.countP_map]
  have hsub : ((get_tasks_due_soon s now 24).filter
      (fun t => send t.user_id t.id)).Sublist s :=
    (List.filter_sublist _).trans (List.filter_sublist _)
  have h1 : ((get_tasks_due_soon s now 24).filter
        (fun t => send t.user_id t.id)).countP
          ((fun p : Sent => p.2 == i) ∘ (fun t => (t.user_id, t.id)))
      ≤ s.countP (fun t => t.id == i) := by
    exact hsub.countP_le _
  have h2 : s.countP (fun t => t.id == i) = (s.map Task.id).count i := by
    rw [List.count_eq_countP, List.countP_map]
    rfl
  have h3 : (s.map Task.id).count i ≤ 1 := List.nodup_iff_count_le_one.mp hids i
  omega

/-- After a notification for task id `i` went out, every row with that id has
`reminder_sent = true` in the post-sweep table. -/
theorem flag_set_of_notified (send : Nat → Nat → Bool) (now : Int) (s : List Task)
    {u i : Nat} (hui : (u, i) ∈ (check_deadlines send now s).2) :
    ∀ r ∈ (check_deadlines send now s).1, r.id = i → r.reminder_sent = true := by
  intro r hr hri
  rw [check_deadlines_sent] at hui
  rw [check_deadlines_tasks] at hr
  obtain ⟨x, hx, hxe⟩ := List.mem_map.mp hui
  obtain ⟨r0, _, rfl⟩ := List.mem_map.mp hr
  have hxi : x.id = i := congrArg Prod.snd hxe
  by_cases hc : ((get_tasks_due_soon s now 24).filter
      (fun t => send t.user_id t.id)).any (fun t => t.id == r0.id)
  · simp only [hc, if_pos]
  · exfalso
    have hr0 : r0.id = i := by
      by_cases hc2 : ((get_tasks_due_soon s now 24).filter
          (fun t => send t.user_id t.id)).any (fun t => t.id == r0.id) <;>
        simp_all
    exact hc (List.any_eq_true.mpr ⟨x, hx, by simp [hxi, hr0]⟩)

/-- If every row carrying id `i` is already flagged, the sweep sends nothing
for id `i`. -/
theorem no_notification_when_flagged (send : Nat → Nat → Bool) (now : Int)
    (s : List Task) {i : Nat}
    (hflag : ∀ r ∈ s, r.id = i → r.reminder_sent = true) :
    (check_deadlines send now s).2.countP (fun p => p.2 == i) = 0 := by
  rw [check_deadlines_sent, List.countP_map]
  refine List.countP_eq_zero.mpr ?_
  intro x hx
  have hx1 : x ∈ get_tasks_due_soon s now 24 := List.mem_of_mem_filter hx
  have hx2 := List.mem_filter.mp hx1
  intro hpx
  have hxi : x.id = i := by simpa using hpx
  have := hflag x hx2.1 hxi
  have hdue := hx2.2
  rw [isDueSoon] at hdue
  simp [this] at hdue

/-- C3: running `check_deadlines` twice in immediate succession (same clock,
same dispatcher, no intervening change) yields at most one notification per
originally-eligible task: a task whose dispatch succeeded in the first sweep
has `reminder_sent = true` in the stored table afterwards and is therefore
not selected — hence not notified — by the second sweep. -/
theorem C3_double_sweep_no_double_notify (send : Nat → Nat → Bool) (now : Int)
    (s0 : List Task) (hids : (s0.map Task.id).Nodup) (t : Task)
    (_ht : t ∈ get_tasks_due_soon s0 now 24) :
    (((check_deadlines send now s0).2 ++
        (check_deadlines send now (check_deadlines send now s0).1).2).countP
          (fun p => p.2 == t.id) ≤ 1) ∧
    (∀ u : Nat, (u, t.id) ∈ (check_deadlines send now s0).2 →
      ∀ r ∈ (check_deadlines send now s0).1, r.id = t.id → r.reminder_sent = true) := by
  refine ⟨?_, fun u hu => flag_set_of_notified send now s0 hu⟩
  rw [List.countP_append]
  by_cases hn : ∃ u : Nat, (u, t.id) ∈ (check_deadlines send now s0).2
  · obtain ⟨u, hu⟩ := hn
    have h2 : (check_deadlines send now (check_deadlines send now s0).1).2.countP
        (fun p => p.2 == t.id) = 0 :=
      no_notification_when_flagged send now _ (flag_set_of_notified send now s0 hu)
    have h1 := sweep_count_le_one send now s0 hids t.id
    omega
  · have h1 : (check_deadlines send now s0).2.countP (fun p => p.2 == t.id) = 0 := by
      refine List.countP_eq_zero.mpr ?_
      intro p hp hpt
      exact hn ⟨p.1, by
        have : p.2 = t.id := by simpa using hpt
        rwa [← this, Prod.mk.eta]⟩
    have hids1 : ((check_deadlines send now s0).1.map Task.id).Nodup := by
      rw [check_deadlines_ids]
      exact hids
    have h2 := sweep_count_le_one send now (check_deadlines send now s0).1 hids1 t.id
    omega

/-- A pending task with a deadline one hour out and its reminder unsent. -/
def soonTask : Task :=
  { sampleTask with id := 9, deadline := some 3600 }

/-- C3 witness: `C3_double_sweep_no_double_notify` on the one-task store with
an always-succeeding dispatcher at `now = 0`. -/
theorem C3_double_sweep_no_double_notify_witness :
    ((check_deadlines (fun _ _ => true) 0 [soonTask]).2 ++
        (check_deadlines (fun _ _ => true) 0
          (check_deadlines (fun _ _ => true) 0 [soonTask]).1).2).countP
      (fun p => p.2 == soonTask.id) ≤ 1 :=
  (C3_double_sweep_no_double_notify (fun _ _ => true) 0 [soonTask]
    (by decide) soonTask (by decide)).1

/-- C4: a dispatch failure for one selected task (`send` returns false there,
the embedded image of the caught exception) is contained: the failing task's
`reminder_sent` flag is NOT set, the task is still selected by an immediately
following sweep, and every other selected task whose dispatch succeeds is
still notified — the loop, a total function here, never aborts. -/
theorem C4_dispatch_failure_isolated (send : Nat → Nat → Bool) (now : Int)
    (s0 : List Task) (hids : (s0.map Task.id).Nodup) (t : Task)
    (ht : t ∈ get_tasks_due_soon s0 now 24)
    (hfail : send t.user_id t.id = false) :
    (∀ r ∈ (check_deadlines send now s0).1, r.id = t.id → r.reminder_sent = false) ∧
    t ∈ get_tasks_due_soon (check_deadlines send now s0).1 now 24 ∧
    (∀ t2 ∈ get_tasks_due_soon s0 now 24, send t2.user_id t2.id = true →
      (t2.user_id, t2.id) ∈ (check_deadlines send now s0).2) := by
  have hmem := List.mem_filter.mp ht
  have hdue := hmem.2
  have hflag : t.reminder_sent = false := by
    rw [isDueSoon] at hdue
    rcases t.deadline <;> simp_all
  have hnot : ∀ x ∈ (get_tasks_due_soon s0 now 24).filter
      (fun t2 => send t2.user_id t2.id), ¬ (x.id == t.id) = true := by
    intro x hx hxe
    have hx2 := List.mem_filter.mp hx
    have hxid : x.id = t.id := by simpa using hxe
    have hsel : (get_tasks_due_soon s0 now 24).map Task.id |>.Nodup :=
      ((List.filter_sublist s0).map Task.id).nodup hids
    have : x = t := List.inj_on_of_nodup_map hsel
      (List.mem_of_mem_filter hx) ht hxid
    rw [this, hfail] at hx2
    exact Bool.false_ne_true hx2.2
  refine ⟨?_, ?_, ?_⟩
  · intro r hr hri
    rw [check_deadlines_tasks] at hr
    obtain ⟨r0, hr0, rfl⟩ := List.mem_map.mp hr
    have hr0i : r0.id = t.id := by
      revert hri
      split <;> intro hri <;> exact hri
    have hr0t : r0 = t := List.inj_on_of_nodup_map hids hr0 hmem.1 hr0i
    rw [hr0t, if_neg, hflag]
    intro hc
    obtain ⟨x, hx, hxe⟩ := List.any_eq_true.mp hc
    exact hnot x hx hxe
  · rw [check_deadlines_tasks]
    refine List.mem_filter.mpr ⟨?_, hdue⟩
    have himg : (if ((get_tasks_due_soon s0 now 24).filter
          (fun t2 => send t2.user_id t2.id)).any (fun t2 => t2.id == t.id)
        then { t with reminder_sent := true } else t) = t := by
      rw [if_neg]
      intro hc
      obtain ⟨x, hx, hxe⟩ := List.any_eq_true.mp hc
      exact hnot x hx hxe
    have hmm := List.mem_map_of_mem (fun u =>
      if ((get_tasks_due_soon s0 now 24).filter
          (fun t2 => send t2.user_id t2.id)).any (fun t2 => t2.id == u.id)
      then { u with reminder_sent := true } else u) hmem.1
    simpa only [himg] using hmm
  · intro t2 ht2 hok
    rw [check_deadlines_sent]
    exact List.mem_map_of_mem _ (List.mem_filter.mpr ⟨ht2, hok⟩)

/-- C4 witness: `C4_dispatch_failure_isolated` on a two-task store where the
dispatcher fails for task 9 and succeeds for task 5: task 9 keeps a clear
flag and stays eligible, task 5 is still notified. -/
theorem C4_dispatch_failure_isolated_witness :
    (∀ r ∈ (check_deadlines (fun _ i => i == 5) 0 [soonTask, { soonTask with id := 5 }]).1,
      r.id = soonTask.id → r.reminder_sent = false) ∧
    soonTask ∈ get_tasks_due_soon
      (check_deadlines (fun _ i => i == 5) 0 [soonTask, { soonTask with id := 5 }]).1 0 24 ∧
    (∀ t2 ∈ get_tasks_due_soon [soonTask, { soonTask with id := 5 }] 0 24,
      (fun (_ i : Nat) => i == 5) t2.user_id t2.id = true →
      (t2.user_id, t2.id) ∈
        (check_deadlines (fun _ i => i == 5) 0 [soonTask, { soonTask with id := 5 }]).2) :=
  C4_dispatch_failure_isolated (fun _ i => i == 5) 0 [soonTask, { soonTask with id := 5 }]
    (by decide) soonTask (by decide) (by decide)

/-- The store that exhibits the sweep's recipient bug: the owning user has
internal primary key 1 but external chat identity (telegram id) 555, and owns
the one pending task due in an hour. -/
def buggyStore : Store :=
  { users := [{ id := 1, telegram_id := 555 }]
    tasks := [{ id := 1, user_id := 1, title := "задача", status := "pending",
                priority := "urgent", deadline := some 3600,
                estimated_time := none, reminder_sent := false, completed_at := none }]
    categories := []
    subtasks := [] }

/-- C5: evaluation of the sweep at `buggyStore` (dispatch always succeeds,
`now = 0`).  Exactly one notification goes out and on its success
`reminder_sent = true` is persisted — but the chat identity passed to the
send operation is `task.user_id = 1`, the internal primary key, and NOT the
owning user's telegram id 555: `bot.check_deadlines` passes
`chat_id=task.user_id` where `Task.user_id` references `users.id`, not
`users.telegram_id`.  The claim's dispatch-recipient property fails on the
code. -/
theorem C5_sweep_sends_to_internal_id_not_telegram_id :
    (check_deadlines (fun _ _ => true) 0 buggyStore.tasks).2 = [(1, 1)] ∧
    buggyStore.users.find? (fun u => u.id == 1) =
      some { id := 1, telegram_id := 555 } ∧
    ((1 : Nat), (1 : Nat)).1 ≠ 555 ∧
    (check_deadlines (fun _ _ => true) 0 buggyStore.tasks).1 =
      [{ id := 1, user_id := 1, title := "задача", status := "pending",
         priority := "urgent", deadline := some 3600,
         estimated_time := none, reminder_sent := true, completed_at := none }] := by
  refine ⟨?_, rfl, by decide, ?_⟩ <;> decide

/-- A store with two users where subtask 1 belongs (through task 1) to user 1
only; user 2 owns nothing. -/
def scopeStore : Store :=
  { users := [{ id := 1, telegram_id := 111 }, { id := 2, telegram_id := 222 }]
    tasks := [{ id := 1, user_id := 1, title := "задача", status := "pending",
                priority := "medium", deadline := none, estimated_time := none,
                reminder_sent := false, completed_at := none }]
    categories := []
    subtasks := [{ id := 1, task_id := 1, title := "шаг", is_completed := false }] }

/-- C10 counterexample: `toggle_subtask` and `mark_reminder_sent` take no user
identity at all and select by entity id alone, so invoked from user 2's
session against entities owned by user 1 they still mutate the store instead
of leaving it unchanged with a not-found result — refuting the claim that
EVERY read/update/delete operation is scoped to the owning user. -/
theorem C10_counterexample :
    scopeStore.users.any (fun u => u.id == 2) = true ∧
    scopeStore.subtasks.find? (fun st => st.id == 1) =
      some { id := 1, task_id := 1, title := "шаг", is_completed := false } ∧
    scopeStore.tasks.find? (fun t => t.id == 1) =
      some { id := 1, user_id := 1, title := "задача", status := "pending",
             priority := "medium", deadline := none, estimated_time := none,
             reminder_sent := false, completed_at := none } ∧
    (toggle_subtask scopeStore 1).1 ≠ scopeStore ∧
    (toggle_subtask scopeStore 1).2 =
      some { id := 1, task_id := 1, title := "шаг", is_completed := true } ∧
    Store.mark_reminder_sent scopeStore 1 ≠ scopeStore := by
  refine ⟨rfl, rfl, rfl, ?_, rfl, ?_⟩ <;> decide

/-- C10 amended: the Task and Category read/update/delete operations that take
a user identity (`get_task_by_id`, `update_task`, `delete_task`,
`get_category_by_id`, `update_category`, `delete_category`) are scoped to it:
invoked with a user that does not own the target entity they leave the store
unchanged and return a not-found result.  `mark_reminder_sent` and
`toggle_subtask`, by contrast, are keyed by entity id alone and are not
user-scoped (see the counterexample). -/
theorem C10_user_scoped_operations (s : Store) (tid uid cid : Nat)
    (p : TaskPatch) (now : Int) (nm colr : Option String)
    (htask : ∀ t ∈ s.tasks, ¬(t.id = tid ∧ t.user_id = uid))
    (hcat : ∀ c ∈ s.categories, ¬(c.id = cid ∧ c.user_id = uid)) :
    get_task_by_id s tid uid = none ∧
    update_task s tid uid p now = (s, none) ∧
    delete_task s tid uid = (s, false) ∧
    get_category_by_id s cid uid = none ∧
    update_category s cid uid nm colr = (s, none) ∧
    delete_category s cid uid = (s, false) := by
  have hfindT : s.tasks.find? (fun t => t.id == tid && t.user_id == uid) = none := by
    refine List.find?_eq_none.mpr ?_
    intro t htm
    simpa using htask t htm
  have hanyT : s.tasks.any (fun t => t.id == tid && t.user_id == uid) = false := by
    refine List.any_eq_false.mpr ?_
    intro t htm
    simpa using htask t htm
  have hfindC : s.categories.find? (fun c => c.id == cid && c.user_id == uid) = none := by
    refine List.find?_eq_none.mpr ?_
    intro c hcm
    simpa using hcat c hcm
  have hanyC : s.categories.any (fun c => c.id == cid && c.user_id == uid) = false := by
    refine List.any_eq_false.mpr ?_
    intro c hcm
    simpa using hcat c hcm
  refine ⟨hfindT, ?_, ?_, hfindC, ?_, ?_⟩
  · rw [update_task, hfindT]
  · rw [delete_task, hanyT]
    simp
  · rw [update_category, hfindC]
  · rw [delete_category, hanyC]
    simp

/-- C10 witness: `C10_user_scoped_operations` on `scopeStore` with requesting
user 2, who owns neither task 1 nor any category: every scoped operation
reports not-found and leaves the store as it was. -/
theorem C10_user_scoped_operations_witness :
    get_task_by_id scopeStore 1 2 = none ∧
    update_task scopeStore 1 2 {} 0 = (scopeStore, none) ∧
    delete_task scopeStore 1 2 = (scopeStore, false) ∧
    get_category_by_id scopeStore 1 2 = none ∧
    update_category scopeStore 1 2 none none = (scopeStore, none) ∧
    delete_category scopeStore 1 2 = (scopeStore, false) :=
  C10_user_scoped_operations scopeStore 1 2 1 {} 0 none none
    (by decide) (by decide)

end TaskBot
